import Mathlib

/-!
# Verification of the order-finalization / payment-reconciliation subsystem

Shallow embedding of the payment subsystem of `backend/app.py`:
the cart snapshot normalizer (`safe_float`, `safe_positive_int`,
`normalize_order_item`, `calculate_order_totals`), the order ledger
operations (`persist_paid_order`, `clear_user_cart_state`), and the three
reconciliation channels (`sumup_callback`, `sumup_webhook`,
`create_paid_order`) together with checkout initiation
(`sumup_create_checkout`).

Modelling conventions:
* Python floats are modelled as rationals (`ℚ`); `round(x, 2)` is modelled
  as exact round-half-even at two decimal places.
* Client payloads (JSON bodies) are modelled by the `PyVal` type below,
  with Python truthiness (`or`-chains, `if not x`) made explicit.
* The MongoDB collections `db.orders` / `db.users` are modelled as lists;
  `find_one` returns the first match, `update_one` updates the first match.
* Outbound I/O (the SumUp provider, the e-mail sender) is modelled by a
  `Provider` record of response functions and an append-only event log.
-/

namespace LimeStore

/-- A Python/JSON value, as carried in request payloads and user documents. -/
inductive PyVal where
  | none
  | bool (b : Bool)
  | num (q : ℚ)
  | str (s : String)
  | list (elems : List PyVal)
  | dict (fields : List (String × PyVal))

instance : Inhabited PyVal := ⟨PyVal.none⟩

/-- Python `s.strip()`: remove leading and trailing whitespace.  Implemented
by structural recursion over the character list (the core `String.trim`
is extensionally the same but is not kernel-reducible). -/
def pyStrip (s : String) : String :=
  ⟨((s.data.dropWhile Char.isWhitespace).reverse.dropWhile Char.isWhitespace).reverse⟩

/-- Python `s.lower()` (ASCII, which covers every string the routes build). -/
def pyLower (s : String) : String := ⟨s.data.map Char.toLower⟩

/-- Python `s.upper()` (ASCII). -/
def pyUpper (s : String) : String := ⟨s.data.map Char.toUpper⟩

/-- Python string falsiness: the empty string. -/
def strEmpty (s : String) : Bool := s == ""

/-- Python truthiness: `None`, `False`, `0`, `""`, `[]`, `{}` are falsy. -/
def truthy : PyVal → Bool
  | .none => false
  | .bool b => b
  | .num q => decide (q ≠ 0)
  | .str s => !strEmpty s
  | .list l => !l.isEmpty
  | .dict d => !d.isEmpty

/-- Python `a or b`: `a` when truthy, else `b`. -/
def pyOr (a b : PyVal) : PyVal := if truthy a then a else b

/-- Model of `payload.get(k)`: the value stored under key `k`, or `None` when absent. -/
def dget (d : List (String × PyVal)) (k : String) : PyVal :=
  match d.find? (fun p => p.1 == k) with
  | some p => p.2
  | Option.none => .none

/-- Python `str(v)`.  The routes modelled here only ever apply `str` to
strings, numbers, `None` and booleans; containers are not exercised. -/
def pyStr : PyVal → String
  | .none => "None"
  | .bool b => if b then "True" else "False"
  | .num q => if q.den = 1 then toString q.num else toString q
  | .str s => s
  | .list _ => "list"
  | .dict _ => "dict"

/-- Numeric value of a list of decimal digit characters; `none` when empty or
when a non-digit appears. -/
def digitsVal (cs : List Char) : Option ℕ :=
  if cs.isEmpty then Option.none
  else cs.foldl
    (fun acc? c =>
      match acc? with
      | Option.none => Option.none
      | some acc => if c.isDigit then some (10 * acc + (c.toNat - 48)) else Option.none)
    (some 0)

/-- Helper of `parsePyFloat`: split a character list at the decimal points. -/
def splitDot : List Char → List (List Char)
  | [] => [[]]
  | c :: rest =>
      match splitDot rest with
      | [] => [[]]
      | g :: gs => if c = '.' then [] :: g :: gs else (c :: g) :: gs

/-- Python `float(s)` on a string: optional sign, decimal digits, optional
fractional part.  Exponent forms and `inf`/`nan` literals are not modelled
(`inf`/`nan` would in any case be discarded by the `math.isfinite` guard in
`safe_float`, and exponents are not exercised by any modelled route). -/
def parsePyFloat (s : String) : Option ℚ :=
  let t := (pyStrip s).data
  let (sign, body) :=
    match t with
    | '-' :: rest => ((-1 : ℚ), rest)
    | '+' :: rest => ((1 : ℚ), rest)
    | _ => ((1 : ℚ), t)
  match splitDot body with
  | [intPart] => (digitsVal intPart).map (fun n => sign * (n : ℚ))
  | [intPart, fracPart] =>
      if intPart.isEmpty && fracPart.isEmpty then Option.none
      else
        let ip? : Option ℕ :=
          if intPart.isEmpty then some 0 else digitsVal intPart
        let fp? : Option ℕ :=
          if fracPart.isEmpty then some 0 else digitsVal fracPart
        match ip?, fp? with
        | some ip, some fp =>
            some (sign * ((ip : ℚ) + (fp : ℚ) / ((10 : ℚ) ^ fracPart.length)))
        | _, _ => Option.none
  | _ => Option.none

/-- Python `float(value)`: numbers and booleans convert, strings parse,
everything else raises (`none`). -/
def pyFloat? : PyVal → Option ℚ
  | .num q => some q
  | .bool b => some (if b then 1 else 0)
  | .str s => parsePyFloat s
  | _ => Option.none

/-- Model of `safe_float` (app.py:1365): `float(value)` with `TypeError`/`ValueError`
and non-finite results replaced by the default.  Every representable `ℚ` is
finite, so the `math.isfinite` branch never rejects a parsed value here. -/
def safe_float (v : PyVal) (default : ℚ) : ℚ :=
  match pyFloat? v with
  | Option.none => default
  | some q => q

/-- Python `int(q)` for a finite float: truncation toward zero. -/
def pyTrunc (q : ℚ) : ℤ :=
  if q < 0 then -(Rat.floor (-q)) else Rat.floor q

/-- Model of `safe_positive_int` (app.py:1374): `int(float(value))` with failures
replaced by the default, then clamped from below by the default. -/
def safe_positive_int (v : PyVal) (default : ℤ) : ℤ :=
  match pyFloat? v with
  | Option.none => default
  | some q => max default (pyTrunc q)

/-- Round-half-even to an integer (Python `round`'s tie-breaking rule). -/
def roundHalfEven (q : ℚ) : ℤ :=
  let f := Rat.floor q
  let r := q - (f : ℚ)
  if r < 1 / 2 then f
  else if 1 / 2 < r then f + 1
  else if f % 2 = 0 then f else f + 1

/-- Python `round(x, 2)`, modelled as exact half-even rounding at two
decimal places. -/
def round2 (q : ℚ) : ℚ := (roundHalfEven (100 * q) : ℚ) / 100

/-- A normalized order line item, the dict built by `normalize_order_item`. -/
structure Item where
  product_id : String
  quantity : ℤ
  name : String
  price : ℚ
  image_url : String
  variation_id : String
  variation_name : String
deriving Repr, DecidableEq, Inhabited

/-- Model of `normalize_order_item` (app.py:1381): resolve a product reference from
the accepted alias spellings, dropping the entry (`none`) when none resolves;
coerce quantity with default 1 (`or 1` guards the zero case); coerce and
round the unit price; carry the name, image and variation fields. -/
def normalize_order_item : PyVal → Option Item
  | .dict d =>
      let pidRaw :=
        pyOr (dget d "product_id")
          (pyOr (dget d "productId") (pyOr (dget d "id") (dget d "product")))
      let pidStr :=
        match pidRaw with
        | .none => ""
        | v => pyStrip (pyStr v)
      if strEmpty pidStr then Option.none
      else
        let q0 := safe_positive_int (dget d "quantity") 1
        let quantity := if q0 = 0 then 1 else q0
        let name := pyStrip (pyStr (pyOr (dget d "name") (.str "")))
        let price := round2 (safe_float (dget d "price") 0)
        let image_url :=
          pyStrip (pyStr (pyOr (dget d "imageUrl") (pyOr (dget d "image_url") (.str ""))))
        let varRaw :=
          pyOr (dget d "variation_id")
            (pyOr (dget d "variationId") (pyOr (dget d "selectedVariationId") (.str "")))
        let variation_id := if truthy varRaw then pyStrip (pyStr varRaw) else ""
        let varNameRaw := pyOr (dget d "variation_name") (pyOr (dget d "variationName") (.str ""))
        let variation_name := if truthy varNameRaw then pyStrip (pyStr varNameRaw) else ""
        some {
          product_id := pidStr
          quantity := quantity
          name := name
          price := price
          image_url := image_url
          variation_id := variation_id
          variation_name := variation_name
        }
  | _ => Option.none

/-- Model of `calculate_order_totals` (app.py:1435), subtotal component.  The source
re-reads `item["quantity"]` through `safe_positive_int(·, 0)` and
`item["price"]` through `safe_float(·, 0.0)`; on the already-typed fields of
a normalized item those reduce to `max 0` and the identity. -/
def calculate_order_totals_subtotal (items : List Item) : ℚ :=
  round2 (items.foldl (fun acc it => acc + it.price * ((max 0 it.quantity : ℤ) : ℚ)) 0)

/-- Model of `calculate_order_totals` (app.py:1435), `total_items` component. -/
def calculate_order_totals_items (items : List Item) : ℤ :=
  items.foldl (fun acc it => acc + max 0 it.quantity) 0

/-- Model of `normalize_email` (app.py:214) on an already-string value:
`str(value or "").strip().lower()`. -/
def normalize_email (s : String) : String := pyLower (pyStrip s)

/-- Model of `normalize_email` applied to an arbitrary payload value. -/
def normalize_email_v (v : PyVal) : String :=
  pyLower (pyStrip (if truthy v then pyStr v else ""))

/-- Model of `normalize_address_payload` (app.py:765), abstracted: the field-by-field
alias normalization is collapsed to an opaque token; only presence (a truthy
non-empty dict) versus absence matters to the verified claims. -/
def normalize_address_payload (v : PyVal) : Option String :=
  match v with
  | .dict d => if d.isEmpty then Option.none else some (pyStr (.dict d))
  | _ => Option.none

/-- An order document as stored in `db.orders`.  `oid` models the Mongo
`_id`.  `Option` fields model key presence: `none` means the key is absent
from the document.  `customer_email` models the nested `customer.email`
field that legacy order documents may carry (queried by
`clear_user_cart_state`); documents written by the modelled routes never
set it. -/
structure OrderDoc where
  oid : ℕ
  order_id : String
  checkout_id : Option String
  items : List Item
  total : ℚ
  currency : String
  payment_status : String
  status : String
  payment_method : String
  email : String
  customer_name : String
  user : Option String
  user_id : Option String
  customer_email : Option String
  shipping_address : Option String
  created_at : ℕ
deriving Repr, DecidableEq

/-- A user document as stored in `db.users`: an open record of fields. -/
abbrev UserDoc := List (String × PyVal)

/-- The durable state plus the append-only effect log: the orders and users
collections, the `_id` allocator, the recipients of attempted receipt
e-mails (`send_order_confirmation_email` invocations) and the number of
`clear_user_cart_state` invocations. -/
structure St where
  orders : List OrderDoc
  users : List UserDoc
  nextId : ℕ
  emails : List String
  cartClears : ℕ

/-- Mongo `find_one` by `order_id` on the orders collection. -/
def findOrder (orders : List OrderDoc) (ref : String) : Option OrderDoc :=
  orders.find? (fun o => o.order_id == ref)

/-- Mongo `update_one`: rewrite the first element satisfying the filter. -/
def updateFirst {α : Type} (p : α → Bool) (f : α → α) : List α → List α
  | [] => []
  | x :: xs => if p x then f x :: xs else x :: updateFirst p f xs

/-- Does the user document's `email` field equal the given string? -/
def userEmailIs (u : UserDoc) (e : String) : Bool :=
  match dget u "email" with
  | .str s => s == e
  | _ => false

/-- Mongo unset of the `cart` and `cart_items` fields on a user document. -/
def unsetCartFields (u : UserDoc) : UserDoc :=
  u.filter (fun p => !(p.1 == "cart" || p.1 == "cart_items"))

/-- Ownership filter (the Mongo or-clause) assembled by `clear_user_cart_state`
(app.py:1818-1834): e-mail matches on `email` / `user` / `customer.email`,
user-id match on `user_id`, order-reference match on `order_id` — each
disjunct present only when the corresponding input is truthy. -/
def cleanupOwnershipMatch (normalized_email normalized_user_id : String)
    (pending_order_id : Option String) (o : OrderDoc) : Bool :=
  (!strEmpty normalized_email &&
      (o.email == normalized_email
        || o.user == some normalized_email
        || o.customer_email == some normalized_email))
  || (!strEmpty normalized_user_id && o.user_id == some normalized_user_id)
  || (match pending_order_id with
      | some pid => !strEmpty pid && o.order_id == pyStrip pid
      | Option.none => false)

/-- Model of `clear_user_cart_state` (app.py:1811): delete pending orders owned by
the purchaser (only when at least one ownership filter was assembled), then
unset the `cart`/`cart_items` fields on the purchaser's user document. -/
def clear_user_cart_state (st : St) (user_email : String)
    (user_identifier : String) (pending_order_id : Option String) : St :=
  let normalized_email := normalize_email user_email
  let normalized_user_id := pyStrip user_identifier
  let pendingTruthy := match pending_order_id with
    | some p => !strEmpty p
    | Option.none => false
  let haveFilters := !strEmpty normalized_email || !strEmpty normalized_user_id || pendingTruthy
  let orders' :=
    if haveFilters then
      st.orders.filter (fun o =>
        !(o.payment_status == "pending"
          && cleanupOwnershipMatch normalized_email normalized_user_id pending_order_id o))
    else st.orders
  let users' :=
    if strEmpty normalized_email then st.users
    else updateFirst (fun u => userEmailIs u normalized_email) unsetCartFields st.users
  { st with
    orders := orders'
    users := users'
    cartClears := st.cartClears + 1 }

/-- Application of the `base_fields` set-document of `persist_paid_order`
(app.py:1870-1889) applied to an existing order document: every base field
is overwritten unconditionally; `shipping_address` / `user_id` / `user` are
included in the `$set` only when the corresponding argument is truthy, so
the stored value survives otherwise; `created_at` is carried over from the
existing document. -/
def applyPaidSet (normalized_items : List Item) (total_value : ℚ)
    (normalized_currency : String) (effective_order_id checkout_reference : String)
    (normalized_customer_email customer_name : String)
    (current_user_email user_identifier : String)
    (normalized_payment_method : String) (shipping_address : Option String)
    (e : OrderDoc) : OrderDoc :=
  { oid := e.oid
    order_id := effective_order_id
    checkout_id := some checkout_reference
    items := normalized_items
    total := total_value
    currency := normalized_currency
    payment_status := "paid"
    status := "paid"
    payment_method := normalized_payment_method
    email := normalized_customer_email
    customer_name := customer_name
    user := if strEmpty current_user_email then e.user else some current_user_email
    user_id := if strEmpty user_identifier then e.user_id else some user_identifier
    customer_email := e.customer_email
    shipping_address := if shipping_address.isSome then shipping_address else e.shipping_address
    created_at := e.created_at }

/-- Result of `persist_paid_order`: the new state, the order document it
returns, and whether a receipt e-mail was attempted. -/
structure PersistOut where
  st : St
  doc : OrderDoc
  email_sent : Bool

/-- Model of `persist_paid_order` (app.py:1845): normalize the payment method,
order id, currency and customer e-mail; look up an existing document by
order id; when one exists, apply `base_fields` to it through an
unconditional `update_one({"_id": ...}, {"$set": base_fields})` —
irrespective of its stored `payment_status`; otherwise insert a fresh
document; finally attempt the receipt e-mail when a customer e-mail is
known.  `freshRef` models `f"LIME-{uuid4()...}"` and `now` models
`datetime.utcnow()`. -/
def persist_paid_order (st : St) (normalized_items : List Item)
    (total_value : ℚ) (currency_code : String)
    (order_identifier checkout_reference : String)
    (customer_email customer_name : String)
    (current_user_email user_identifier : String)
    (payment_method : String) (shipping_address : Option String)
    (freshRef : String) (now : ℕ) : PersistOut :=
  let normalized_payment_method :=
    let s := pyStrip (if strEmpty payment_method then "FAKE_TEST" else payment_method)
    if strEmpty s then "FAKE_TEST" else s
  let effective_order_id := if strEmpty order_identifier then freshRef else order_identifier
  let normalized_currency :=
    if strEmpty currency_code then "EUR" else pyUpper (pyStrip currency_code)
  let normalized_customer_email := normalize_email customer_email
  let existing_order :=
    if strEmpty effective_order_id then Option.none
    else findOrder st.orders effective_order_id
  let afterWrite : St × OrderDoc :=
    match existing_order with
    | some e =>
        let updated := applyPaidSet normalized_items total_value normalized_currency
          effective_order_id checkout_reference normalized_customer_email customer_name
          current_user_email user_identifier normalized_payment_method shipping_address e
        ({ st with orders := updateFirst (fun o => o.oid == e.oid) (fun _ => updated) st.orders },
          updated)
    | Option.none =>
        let fresh : OrderDoc :=
          { oid := st.nextId
            order_id := effective_order_id
            checkout_id := some checkout_reference
            items := normalized_items
            total := total_value
            currency := normalized_currency
            payment_status := "paid"
            status := "paid"
            payment_method := normalized_payment_method
            email := normalized_customer_email
            customer_name := customer_name
            user := if strEmpty current_user_email then Option.none else some current_user_email
            user_id := if strEmpty user_identifier then Option.none else some user_identifier
            customer_email := Option.none
            shipping_address := shipping_address
            created_at := now }
        ({ st with orders := st.orders ++ [fresh], nextId := st.nextId + 1 }, fresh)
  let st1 := afterWrite.1
  let doc := afterWrite.2
  let email_sent := !strEmpty normalized_customer_email
  let st2 := { st1 with
    emails := st1.emails
      ++ (if strEmpty normalized_customer_email then [] else [normalized_customer_email]) }
  ⟨st2, doc, email_sent⟩

/-- The body of a successful `GET /v0.1/checkouts/{id}` status fetch. -/
structure CheckoutStatus where
  status : String
  amount : ℚ
  currency : String
deriving Repr, DecidableEq

/-- The SumUp provider as seen by the handlers: `token` models
`get_sumup_access_token` (`none` = the auth call raises), `fetch` models
the status fetch (`none` = non-2xx or network error), `createSession`
models `POST /v0.1/checkouts` keyed by the submitted amount (`none` =
non-201 response). -/
structure Provider where
  token : Option String
  fetch : String → Option CheckoutStatus
  createSession : ℚ → Option String

/-- Is a verified provider status paid-equivalent
(`status in ("PAID", "SUCCESSFUL")`)? -/
def paidEquiv (s : String) : Bool := s == "PAID" || s == "SUCCESSFUL"

/-- Responses of the redirect-callback handler `sumup_callback`. -/
inductive CbResp where
  | missingRef
  | failedHint
  | authError
  | unknownCheckout
  | verifyFailed
  | rejected (status : String)
  | notFound
  | success (orderId : String)
deriving Repr, DecidableEq

/-- Is a callback response the success outcome? -/
def CbResp.isSuccess : CbResp → Bool
  | .success _ => true
  | _ => false

/-- Output of `sumup_callback`: the response, the post-state and the number
of provider status fetches performed during the request. -/
structure CbOut where
  resp : CbResp
  st : St
  fetchCalls : ℕ

/-- The checkout-id resolution of `sumup_callback` (app.py:3514-3520): use
the query parameter when truthy, else the `checkout_id` stored on the order
found by the reference. -/
def cb_resolve_cid (orders : List OrderDoc) (ref : String)
    (checkout_id : Option String) : Option String :=
  match checkout_id with
  | some c => if strEmpty c then lookupStored orders ref else some c
  | Option.none => lookupStored orders ref
where
  lookupStored (orders : List OrderDoc) (ref : String) : Option String :=
    match findOrder orders ref with
    | some o => o.checkout_id
    | Option.none => Option.none

/-- Model of `sumup_callback` (app.py:3494): reject a missing reference; surface an
explicit `FAILED` hint without verification; otherwise resolve the checkout
id, fetch the authoritative status from the provider, and on a
paid-equivalent verified status persist the paid order (via
`persist_paid_order`) and clear the purchaser's cart residue.  Note the
route performs no already-paid short-circuit: it always verifies and always
re-persists. -/
def sumup_callback (P : Provider) (st : St)
    (checkout_ref checkout_id statusHint : Option String)
    (freshRef : String) (now : ℕ) : CbOut :=
  let refTruthy := match checkout_ref with
    | some r => !strEmpty r
    | Option.none => false
  if !refTruthy then ⟨.missingRef, st, 0⟩
  else
    let ref := checkout_ref.getD ""
    if statusHint == some "FAILED" then ⟨.failedHint, st, 0⟩
    else
      match P.token with
      | Option.none => ⟨.authError, st, 0⟩
      | some _ =>
        let cid? := cb_resolve_cid st.orders ref checkout_id
        let cidTruthy := match cid? with
          | some c => !strEmpty c
          | Option.none => false
        if !cidTruthy then ⟨.unknownCheckout, st, 0⟩
        else
          let cid := cid?.getD ""
          match P.fetch cid with
          | Option.none => ⟨.verifyFailed, st, 1⟩
          | some data =>
            if !paidEquiv data.status then ⟨.rejected data.status, st, 1⟩
            else
              match findOrder st.orders ref with
              | Option.none => ⟨.notFound, st, 1⟩
              | some pending_order =>
                let pout := persist_paid_order st pending_order.items data.amount
                  data.currency ref cid pending_order.email pending_order.customer_name
                  (pending_order.user.getD "") (pending_order.user_id.getD "")
                  "SUMUP_CARD" pending_order.shipping_address freshRef now
                let st2 := clear_user_cart_state pout.st pending_order.email
                  (pending_order.user_id.getD "") (some ref)
                ⟨.success ref, st2, 1⟩

/-- Responses of the webhook handler `sumup_webhook`. -/
inductive WhResp where
  | ignoredType
  | ignoredMissing
  | notFound
  | alreadyPaid
  | serverError
  | verifyFailed
  | ignoredStatus (status : String)
  | ok
deriving Repr, DecidableEq

/-- Is a webhook response the fully-reconciled success outcome? -/
def WhResp.isOk : WhResp → Bool
  | .ok => true
  | _ => false

/-- Output of `sumup_webhook`. -/
structure WhOut where
  resp : WhResp
  st : St
  fetchCalls : ℕ

/-- Model of `sumup_webhook` (app.py:3567): acknowledge and ignore any event whose
type is not `checkout.completed`; ignore envelopes lacking a checkout id or
reference; short-circuit when the referenced order is already paid;
otherwise verify the status with the provider and, only on a
paid-equivalent verified status, persist and fire the post-payment
effects. -/
def sumup_webhook (P : Provider) (st : St) (event : List (String × PyVal))
    (freshRef : String) (now : ℕ) : WhOut :=
  if !(match dget event "type" with
       | .str s => s == "checkout.completed"
       | _ => false) then ⟨.ignoredType, st, 0⟩
  else
    match (let pv := dget event "payload"; if truthy pv then pv else .dict []) with
    | .dict payload =>
      let checkout_id_v := dget payload "id"
      let checkout_ref_v := dget payload "checkout_reference"
      if !truthy checkout_id_v || !truthy checkout_ref_v then ⟨.ignoredMissing, st, 0⟩
      else
        match checkout_ref_v with
        | .str ref =>
          (match findOrder st.orders ref with
          | Option.none => ⟨.notFound, st, 0⟩
          | some pending_order =>
            if pending_order.payment_status == "paid"
                || pending_order.payment_status == "captured" then
              ⟨.alreadyPaid, st, 0⟩
            else
              match P.token with
              | Option.none => ⟨.serverError, st, 0⟩
              | some _ =>
                match P.fetch (pyStr checkout_id_v) with
                | Option.none => ⟨.verifyFailed, st, 1⟩
                | some data =>
                  if !paidEquiv data.status then ⟨.ignoredStatus data.status, st, 1⟩
                  else
                    let pout := persist_paid_order st pending_order.items data.amount
                      data.currency ref (pyStr checkout_id_v) pending_order.email
                      pending_order.customer_name (pending_order.user.getD "")
                      (pending_order.user_id.getD "") "SUMUP_CARD"
                      pending_order.shipping_address freshRef now
                    let st2 := clear_user_cart_state pout.st pending_order.email
                      (pending_order.user_id.getD "") (some ref)
                    ⟨.ok, st2, 1⟩)
        -- a non-string reference matches no stored (string) order_id
        | _ => ⟨.notFound, st, 0⟩
    -- a truthy non-dict payload raises AttributeError (HTTP 500), no writes
    | _ => ⟨.serverError, st, 0⟩

/-- Responses of the begin-checkout handler `sumup_create_checkout`. -/
inductive CcResp where
  | configError
  | noValidItems
  | authError
  | serverError
  | sessionFailed
  | success (checkout_id orderId : String) (amount : ℚ)
deriving Repr, DecidableEq

/-- Output of `sumup_create_checkout`: response, post-state and — when the
session-creation POST was issued — the `amount` field of the submitted
`checkout_payload`. -/
structure CcOut where
  resp : CcResp
  st : St
  sessionAmount : Option ℚ

/-- The `pending_order` document inserted by `sumup_create_checkout`
(app.py:3427-3442). -/
def cc_pending_order (oid : ℕ) (order_identifier : String)
    (normalized_items : List Item) (calculated_total : ℚ)
    (customer_email customer_name current_user_email user_identifier : String)
    (shipping_address : Option String) (now : ℕ) : OrderDoc :=
  { oid := oid
    order_id := order_identifier
    checkout_id := Option.none
    items := normalized_items
    total := calculated_total
    currency := "EUR"
    payment_status := "pending"
    status := "pending"
    payment_method := "SUMUP_CARD"
    email := customer_email
    customer_name := customer_name
    user := some current_user_email
    user_id := some user_identifier
    customer_email := Option.none
    shipping_address := shipping_address
    created_at := now }

/-- Resolution of `customer_payload = payload.get("customer") or {}`
(app.py:3420): a falsy value becomes the empty dict; a truthy non-dict
value makes the following `customer_payload.get("email")` raise
`AttributeError` (caught by the catch-all, HTTP 500) — returned as `none`
here. -/
def cc_customer_dict (payload : List (String × PyVal)) : Option (List (String × PyVal)) :=
  match (let pv := dget payload "customer"; if truthy pv then pv else .dict []) with
  | .dict d => some d
  | _ => Option.none

/-- Extraction of the submitted raw item list
(`payload.get("items") or []`; non-list payloads are not exercised). -/
def cc_raw_items (payload : List (String × PyVal)) : List PyVal :=
  match dget payload "items" with
  | .list l => l
  | _ => []

/-- Model of `sumup_create_checkout` (app.py:3386): reject on missing provider
configuration; normalize the cart and reject when no line item survives;
compute the authoritative subtotal; authenticate; persist a `pending`
order; POST the session with the *server-computed* total; on a non-201
response return an error (the pending order is left in place); on success
store the returned checkout id on the order.  `jwtEmail` models
`get_jwt_identity()` (empty = anonymous). -/
def sumup_create_checkout (P : Provider) (st : St) (configOk : Bool)
    (payload : List (String × PyVal)) (jwtEmail : String)
    (freshRef : String) (now : ℕ) : CcOut :=
  if !configOk then ⟨.configError, st, Option.none⟩
  else
    let raw_items := cc_raw_items payload
    let normalized_items := raw_items.filterMap normalize_order_item
    if normalized_items.isEmpty then ⟨.noValidItems, st, Option.none⟩
    else
      let calculated_total := calculate_order_totals_subtotal normalized_items
      let provided_order_id := pyStrip (pyStr (pyOr (dget payload "orderId") (.str "")))
      let order_identifier := if strEmpty provided_order_id then freshRef else provided_order_id
      match P.token with
      | Option.none => ⟨.authError, st, Option.none⟩
      | some _ =>
        let current_user_email := normalize_email jwtEmail
        let user_document :=
          if strEmpty current_user_email then Option.none
          else st.users.find? (fun u => userEmailIs u current_user_email)
        -- `str(user_document["_id"])`; user documents in scope carry an `_id`
        let user_identifier := match user_document with
          | some u => pyStr (dget u "_id")
          | Option.none => ""
        match cc_customer_dict payload with
        -- a truthy non-dict customer raises before the insert and the POST
        | Option.none => ⟨.serverError, st, Option.none⟩
        | some customerD =>
          let customer_email :=
            normalize_email_v (pyOr (dget customerD "email") (.str current_user_email))
          let customer_name := pyStrip (pyStr (pyOr (dget customerD "name") (.str "")))
          let shipping_address := normalize_address_payload (dget payload "shippingAddress")
          let pending := cc_pending_order st.nextId order_identifier normalized_items
            calculated_total customer_email customer_name current_user_email
            user_identifier shipping_address now
          let st1 := { st with orders := st.orders ++ [pending], nextId := st.nextId + 1 }
          match P.createSession calculated_total with
          | Option.none => ⟨.sessionFailed, st1, some calculated_total⟩
          | some checkout_id =>
            let st2 := { st1 with
              orders := updateFirst (fun o => o.order_id == order_identifier)
                (fun o => { o with checkout_id := some checkout_id }) st1.orders }
            ⟨.success checkout_id order_identifier calculated_total, st2, some calculated_total⟩

/-- The recomputed total of `create_paid_order` (app.py:3712-3719):
`sum(safe_float(price) * safe_positive_int(quantity, 1))` over the
normalized items, rounded to two places.  On already-normalized items the
inner coercions reduce to the identity and `max 1`. -/
def cp_calculated_total (items : List Item) : ℚ :=
  round2 (items.foldl (fun acc it => acc + it.price * ((max 1 it.quantity : ℤ) : ℚ)) 0)

/-- Model of `math.isclose(a, b, rel_tol=0.01, abs_tol=0.05)`. -/
def mathIsClose (a b : ℚ) : Bool :=
  decide (|a - b| ≤ max ((1 / 100) * max |a| |b|) (1 / 20))

/-- The persisted total chosen by `create_paid_order` (app.py:3712-3725):
the recomputed total when it is nonzero, otherwise the client-supplied
total (rounded, defaulting to the recomputed total when unparsable); the
final `isclose` guard re-selects the recomputed total, which is already the
selected value whenever that guard can fire. -/
def cp_total_value (items : List Item) (clientTotal : PyVal) : ℚ :=
  let calculated_total := cp_calculated_total items
  let provided_total := round2 (safe_float clientTotal calculated_total)
  let total_value := if calculated_total ≠ 0 then calculated_total else provided_total
  if calculated_total ≠ 0 && provided_total ≠ 0
      && !mathIsClose calculated_total provided_total then
    calculated_total
  else total_value

/-- The fallback line item built inline by `create_paid_order`
(app.py:3683-3700) for an entry `normalize_order_item` rejects. -/
def fallback_item (entry : List (String × PyVal)) : Item :=
  { product_id :=
      pyStrip (pyStr (pyOr (dget entry "product_id")
        (pyOr (dget entry "productId") (pyOr (dget entry "id") (.str "")))))
    quantity :=
      let q := safe_positive_int (dget entry "quantity") 1
      if q = 0 then 1 else q
    name :=
      let n := pyStrip (pyStr (pyOr (dget entry "name") (.str "")))
      if strEmpty n then "Item" else n
    price := round2 (safe_float (dget entry "price") 0)
    image_url :=
      pyStrip (pyStr (pyOr (dget entry "imageUrl") (pyOr (dget entry "image_url") (.str ""))))
    variation_id :=
      pyStrip (pyStr (pyOr (dget entry "variation_id")
        (pyOr (dget entry "variationId")
          (pyOr (dget entry "selectedVariationId") (.str "")))))
    variation_name :=
      pyStrip (pyStr (pyOr (dget entry "variation_name")
        (pyOr (dget entry "variationName") (.str "")))) }

/-- The normalization loop of `create_paid_order`: every dict entry yields
an item (normalized or fallback); a non-dict entry makes the fallback's
`entry.get` raise (`none`, surfaced as HTTP 500). -/
def buildCpItems : List PyVal → Option (List Item)
  | [] => some []
  | e :: rest =>
    match e with
    | .dict d =>
      let it := match normalize_order_item (.dict d) with
        | some it => it
        | Option.none => fallback_item d
      (buildCpItems rest).map (fun l => it :: l)
    | _ => Option.none

/-- Responses of the direct client-confirmation handler `create_paid_order`. -/
inductive CpResp where
  | noItems
  | noNormalized
  | serverError
  | alreadyRecorded (orderId : String)
  | saved (orderId : String)
deriving Repr, DecidableEq

/-- Output of `create_paid_order`. -/
structure CpOut where
  resp : CpResp
  st : St

/-- Model of `create_paid_order` (app.py:3641): normalize the submitted items (with
the inline fallback), recompute the total server-side, resolve the order
identifier, short-circuit when an order with that identifier is already
paid/captured, otherwise persist the order as paid via `persist_paid_order`
and clear the purchaser's cart residue.  This channel never contacts the
provider. -/
def create_paid_order (st : St) (payload : List (String × PyVal))
    (jwtEmail : String) (freshRef : String) (now : ℕ) : CpOut :=
  let current_user_email := normalize_email jwtEmail
  let user_document :=
    if strEmpty current_user_email then Option.none
    else st.users.find? (fun u => userEmailIs u current_user_email)
  let user_identifier := match user_document with
    | some u => if truthy (dget u "_id") then pyStr (dget u "_id") else ""
    | Option.none => ""
  match dget payload "items" with
  | .list rawItems =>
    if rawItems.isEmpty then ⟨.noItems, st⟩
    else
      match buildCpItems rawItems with
      | Option.none => ⟨.serverError, st⟩
      | some normalized_items =>
        if normalized_items.isEmpty then ⟨.noNormalized, st⟩
        else
          let total_value := cp_total_value normalized_items (dget payload "total")
          let order_identifier0 :=
            pyStrip (pyStr (pyOr (dget payload "orderId")
              (pyOr (dget payload "order_id")
                (pyOr (dget payload "checkout_reference") (.str "")))))
          let order_identifier :=
            if strEmpty order_identifier0 then freshRef else order_identifier0
          let checkout_reference :=
            pyStrip (pyStr (pyOr (dget payload "checkoutId")
              (pyOr (dget payload "checkout_id") (.str ""))))
          let currency_code :=
            let c := pyUpper (pyStrip (pyStr (pyOr (dget payload "currency") (.str "EUR"))))
            if strEmpty c then "EUR" else c
          let customer_email :=
            normalize_email_v (pyOr (dget payload "email")
              (pyOr (dget payload "customer_email")
                (pyOr (dget payload "customerEmail") (.str current_user_email))))
          let customer_name :=
            pyStrip (pyStr (pyOr (dget payload "name")
              (pyOr (dget payload "customer_name")
                (pyOr (dget payload "customerName")
                  (pyOr (match user_document with
                         | some u => dget u "name"
                         | Option.none => .none)
                    (.str ""))))))
          match findOrder st.orders order_identifier with
          | some existing =>
            -- `str(existing_order.get("payment_status") or "").lower()`
            if pyLower existing.payment_status == "paid"
                || pyLower existing.payment_status == "captured" then
              ⟨.alreadyRecorded order_identifier, st⟩
            else
              cpPersist st normalized_items total_value currency_code order_identifier
                checkout_reference customer_email customer_name current_user_email
                user_identifier payload freshRef now
          | Option.none =>
              cpPersist st normalized_items total_value currency_code order_identifier
                checkout_reference customer_email customer_name current_user_email
                user_identifier payload freshRef now
  | _ => ⟨.noItems, st⟩
where
  /-- The shared persist-and-clear tail of the handler (app.py:3766-3792). -/
  cpPersist (st : St) (normalized_items : List Item) (total_value : ℚ)
      (currency_code order_identifier checkout_reference : String)
      (customer_email customer_name current_user_email user_identifier : String)
      (payload : List (String × PyVal)) (freshRef : String) (now : ℕ) : CpOut :=
    let shipping_address :=
      normalize_address_payload
        (pyOr (dget payload "shippingAddress") (pyOr (dget payload "address") (.dict [])))
    let payment_method :=
      let p := pyStrip (pyStr (pyOr (dget payload "paymentMethod")
        (pyOr (dget payload "payment_method") (.str "EXTERNAL"))))
      if strEmpty p then "EXTERNAL" else p
    let pout := persist_paid_order st normalized_items total_value currency_code
      order_identifier checkout_reference customer_email customer_name
      current_user_email user_identifier payment_method shipping_address freshRef now
    let st2 := clear_user_cart_state pout.st
      (if strEmpty customer_email then current_user_email else customer_email)
      user_identifier Option.none
    ⟨.saved order_identifier, st2⟩

/-! ## Test fixtures -/

/-- Fixture: a normalized line item. -/
def itemA : Item :=
  { product_id := "prod-1", quantity := 2, name := "Widget", price := 10,
    image_url := "", variation_id := "", variation_name := "" }

/-- Fixture: an order already reconciled to `paid`. -/
def paidDoc : OrderDoc :=
  { oid := 0, order_id := "LIME-TEST01", checkout_id := some "CHK-1",
    items := [itemA], total := 50, currency := "EUR",
    payment_status := "paid", status := "paid", payment_method := "OLD_METHOD",
    email := "buyer@example.com", customer_name := "Buyer",
    user := some "buyer@example.com", user_id := some "u1",
    customer_email := Option.none, shipping_address := Option.none, created_at := 100 }

/-- Fixture: an order still `pending`, subtotal 25.00 EUR. -/
def pendingDoc : OrderDoc :=
  { oid := 0, order_id := "LIME-PEND1", checkout_id := some "CHK-1",
    items := [itemA], total := 25, currency := "EUR",
    payment_status := "pending", status := "pending", payment_method := "SUMUP_CARD",
    email := "buyer@example.com", customer_name := "Buyer",
    user := some "buyer@example.com", user_id := some "u1",
    customer_email := Option.none, shipping_address := Option.none, created_at := 100 }

/-- Fixture: a ledger holding only the already-paid order. -/
def stPaid : St :=
  { orders := [paidDoc], users := [], nextId := 1, emails := [], cartClears := 0 }

/-- Fixture: a ledger holding only the pending order. -/
def stPending : St :=
  { orders := [pendingDoc], users := [], nextId := 1, emails := [], cartClears := 0 }

/-- Fixture: a provider that verifies every checkout as paid with the given
amount. -/
def providerPaid (amt : ℚ) : Provider :=
  { token := some "tok", fetch := fun _ => some ⟨"PAID", amt, "EUR"⟩,
    createSession := fun _ => some "CHK-1" }

/-- Fixture: a provider whose status fetch and session creation fail
(network error / non-2xx). -/
def providerDown : Provider :=
  { token := some "tok", fetch := fun _ => Option.none,
    createSession := fun _ => Option.none }

/-- Fixture: a provider that verifies every checkout as FAILED. -/
def providerFailedStatus : Provider :=
  { token := some "tok", fetch := fun _ => some ⟨"FAILED", 25, "EUR"⟩,
    createSession := fun _ => some "CHK-1" }

/-! ## C6: unrecognized webhook event types are acknowledged with zero writes -/

/-- C6: for every well-formed webhook envelope whose event type is not the
recognized `checkout.completed` type, the webhook endpoint returns the
acknowledgement response and performs zero writes to the order ledger (the
whole state, including the effect log, is unchanged, and no provider fetch
happens). -/
theorem C6_theorem (P : Provider) (st : St) (event : List (String × PyVal))
    (freshRef : String) (now : ℕ)
    (h : dget event "type" ≠ PyVal.str "checkout.completed") :
    (sumup_webhook P st event freshRef now).resp = WhResp.ignoredType
    ∧ (sumup_webhook P st event freshRef now).st = st
    ∧ (sumup_webhook P st event freshRef now).fetchCalls = 0 := by
  have hguard : (match dget event "type" with
      | PyVal.str s => s == "checkout.completed"
      | _ => false) = false := by
    cases hv : dget event "type" with
    | str s =>
        have hs : s ≠ "checkout.completed" := by
          intro hs; exact h (by rw [hv, hs])
        simpa using hs
    | none => rfl
    | bool b => rfl
    | num q => rfl
    | list l => rfl
    | dict d => rfl
  unfold sumup_webhook
  rw [hguard]
  exact ⟨rfl, rfl, rfl⟩

/-- C6 witness: a `payout.created` envelope is acknowledged and ignored. -/
theorem C6_witness :
    (sumup_webhook (providerPaid 25) stPaid [("type", PyVal.str "payout.created")] "F" 0).resp
        = WhResp.ignoredType
    ∧ (sumup_webhook (providerPaid 25) stPaid [("type", PyVal.str "payout.created")] "F" 0).st
        = stPaid
    ∧ (sumup_webhook (providerPaid 25) stPaid [("type", PyVal.str "payout.created")] "F" 0).fetchCalls
        = 0 :=
  C6_theorem (providerPaid 25) stPaid [("type", PyVal.str "payout.created")] "F" 0
    (by simp [dget])

/-! ## C7: normalized unit price -/

/-- C7 counterexample: the claim asserts the normalized unit price is
non-negative, but `safe_float` performs no sign check: a client descriptor
with price `-5` normalizes to a surviving item with price `-5.00 < 0`. -/
theorem C7_counterexample :
    (normalize_order_item
        (.dict [("product_id", PyVal.str "p"), ("price", PyVal.num (-5))])).map Item.price
      = some (-5)
    ∧ ((-5 : ℚ) < 0) := by
  constructor
  · have h : (normalize_order_item
        (.dict [("product_id", PyVal.str "p"), ("price", PyVal.num (-5))])).map Item.price
        = some (round2 (-5)) := rfl
    rw [h]
    norm_num [round2, roundHalfEven, Rat.floor]
  · norm_num

/-- C7 as amended: every surviving normalized item has a unit price that is
a (finite) decimal with at most 2 places — an integer number of cents — and
an unparsable price input is coerced to `0.0` rather than rejecting the
cart; negative prices, however, pass through unchanged. -/
theorem C7_theorem (d : List (String × PyVal)) (it : Item)
    (h : normalize_order_item (.dict d) = some it) :
    (∃ n : ℤ, it.price = (n : ℚ) / 100)
    ∧ (pyFloat? (dget d "price") = Option.none → it.price = 0) := by
  unfold normalize_order_item at h
  by_cases hp : strEmpty (match pyOr (dget d "product_id")
        (pyOr (dget d "productId") (pyOr (dget d "id") (dget d "product"))) with
      | PyVal.none => ""
      | v => pyStrip (pyStr v)) = true
  · simp only [hp, if_true] at h
    exact absurd h (by simp)
  · simp only [hp, if_false] at h
    have hprice : it.price = round2 (safe_float (dget d "price") 0) := by
      cases h; rfl
    constructor
    · exact ⟨roundHalfEven (100 * safe_float (dget d "price") 0), hprice⟩
    · intro hnone
      rw [hprice]
      unfold safe_float
      rw [hnone]
      norm_num [round2, roundHalfEven, Rat.floor]

/-- C7 witness: a price of `"bad"` is unparsable and coerces to `0.0`;
the surviving item's price is an exact 2-decimal value. -/
theorem C7_witness :
    (∃ n : ℤ, (Item.mk "p" 1 "" 0 "" "" "").price = (n : ℚ) / 100)
    ∧ (pyFloat? (dget [("product_id", PyVal.str "p"), ("price", PyVal.str "bad")] "price")
          = Option.none
        → (Item.mk "p" 1 "" 0 "" "" "").price = 0) :=
  C7_theorem [("product_id", PyVal.str "p"), ("price", PyVal.str "bad")]
    (Item.mk "p" 1 "" 0 "" "" "")
    (by
      have h : normalize_order_item
          (.dict [("product_id", PyVal.str "p"), ("price", PyVal.str "bad")])
          = some (Item.mk "p" 1 "" (round2 0) "" "" "") := rfl
      rw [h]
      norm_num [round2, roundHalfEven, Rat.floor])

/-! ## C8: the specification's worked normalizer example -/

/-- The cart of the worked example, with the descriptors exactly as the
specification writes them (fields `price` and `qty` only). -/
def c8_cart : List PyVal :=
  [.dict [("price", PyVal.num 10), ("qty", PyVal.num 2)],
   .dict [("price", PyVal.str "bad"), ("qty", PyVal.num 0)]]

/-- C8 counterexample: on the cart exactly as written, neither descriptor
carries a resolvable product reference, so both are dropped: normalization
does not yield one surviving line item with subtotal 10.00 — it yields
zero items and subtotal 0.00. -/
theorem C8_counterexample :
    ¬ ((c8_cart.filterMap normalize_order_item).length = 1
        ∧ calculate_order_totals_subtotal (c8_cart.filterMap normalize_order_item) = 10) := by
  intro hcl
  have h0 : (c8_cart.filterMap normalize_order_item).length = 0 := by rfl
  rw [h0] at hcl
  exact absurd hcl.1 (by norm_num)

/-- The worked example's cart repaired with resolvable product references
(the nearest cart on which the example's figures can be checked). -/
def c8_cart_with_refs : List PyVal :=
  [.dict [("product_id", PyVal.str "prod-1"), ("price", PyVal.num 10), ("qty", PyVal.num 2)],
   .dict [("product_id", PyVal.str "prod-2"), ("price", PyVal.str "bad"), ("qty", PyVal.num 0)]]

/-- C8 as amended: with resolvable product references added, BOTH
descriptors survive (entries are dropped only for a missing product
reference).  Since `qty` is not a recognized quantity field spelling, each
survives at the default quantity 1; the prices are 10.00 and 0.00 (the
unparsable price coerced), and the computed subtotal is 10.00 — not any
client-asserted total. -/
theorem C8_theorem :
    c8_cart_with_refs.filterMap normalize_order_item
      = [Item.mk "prod-1" 1 "" 10 "" "" "", Item.mk "prod-2" 1 "" 0 "" "" ""]
    ∧ calculate_order_totals_subtotal (c8_cart_with_refs.filterMap normalize_order_item) = 10 := by
  have h : c8_cart_with_refs.filterMap normalize_order_item
      = [Item.mk "prod-1" 1 "" (round2 10) "" "" "",
         Item.mk "prod-2" 1 "" (round2 0) "" "" ""] := rfl
  have h10 : round2 10 = 10 := by norm_num [round2, roundHalfEven, Rat.floor]
  have h0 : round2 0 = 0 := by norm_num [round2, roundHalfEven, Rat.floor]
  constructor
  · rw [h, h10, h0]
  · rw [h, h10, h0]
    norm_num [calculate_order_totals_subtotal, List.foldl, round2, roundHalfEven, Rat.floor]

/-! ## C1: the apply-transition write is not a compare-and-set -/

/-- C1 counterexample: the ledger already holds the order in state `paid`
(with payment method `OLD_METHOD` and total 50), yet re-running the
apply-transition write rewrites the record's payment fields — the write is
applied although the stored state is not `pending`. -/
theorem C1_counterexample :
    paidDoc.payment_status = "paid"
    ∧ paidDoc.payment_method = "OLD_METHOD"
    ∧ (findOrder (persist_paid_order stPaid [itemA] 1 "EUR" "LIME-TEST01" "CHK-2"
          "buyer@example.com" "Buyer" "" "" "SUMUP_CARD" Option.none "F" 5).st.orders
        "LIME-TEST01").map OrderDoc.payment_method = some "SUMUP_CARD"
    ∧ (findOrder (persist_paid_order stPaid [itemA] 1 "EUR" "LIME-TEST01" "CHK-2"
          "buyer@example.com" "Buyer" "" "" "SUMUP_CARD" Option.none "F" 5).st.orders
        "LIME-TEST01").map OrderDoc.total = some 1 :=
  ⟨rfl, rfl, rfl, rfl⟩

/-- C1 as amended: the ledger write that marks an order paid
(`persist_paid_order`, shared by all reconciliation channels) is an
unconditional overwrite of the document matched by order reference: for
every ledger and every matched existing document — with no condition on its
stored lifecycle state — the write replaces that document with the new paid
record carrying the supplied total.  Already-paid protection exists only as
separate read-then-branch guards in the webhook and direct-confirmation
handlers, not as a compare-and-set at write time. -/
theorem C1_theorem (st : St) (items : List Item) (total : ℚ)
    (currency oid cref cem cname cue uid pm : String) (sa : Option String)
    (freshRef : String) (now : ℕ) (e : OrderDoc)
    (hoid : oid ≠ "")
    (hfind : findOrder st.orders oid = some e) :
    (persist_paid_order st items total currency oid cref cem cname cue uid pm sa freshRef now).st.orders
      = updateFirst (fun o => o.oid == e.oid)
          (fun _ => (persist_paid_order st items total currency oid cref cem cname cue uid pm
              sa freshRef now).doc)
          st.orders
    ∧ (persist_paid_order st items total currency oid cref cem cname cue uid pm
        sa freshRef now).doc.payment_status = "paid"
    ∧ (persist_paid_order st items total currency oid cref cem cname cue uid pm
        sa freshRef now).doc.total = total
    ∧ (persist_paid_order st items total currency oid cref cem cname cue uid pm
        sa freshRef now).doc.oid = e.oid := by
  have h1 : strEmpty oid = false := by
    unfold strEmpty
    exact beq_eq_false_iff_ne.mpr hoid
  simp only [persist_paid_order, h1, Bool.false_eq_true, if_false, hfind]
  refine ⟨?_, ?_, ?_, ?_⟩ <;> trivial

/-- C1 witness: the amended theorem instantiated on the already-paid
single-order ledger. -/
theorem C1_witness :
    (persist_paid_order stPaid [itemA] 1 "EUR" "LIME-TEST01" "CHK-2"
        "buyer@example.com" "Buyer" "" "" "SUMUP_CARD" Option.none "F" 5).st.orders
      = updateFirst (fun o => o.oid == paidDoc.oid)
          (fun _ => (persist_paid_order stPaid [itemA] 1 "EUR" "LIME-TEST01" "CHK-2"
              "buyer@example.com" "Buyer" "" "" "SUMUP_CARD" Option.none "F" 5).doc)
          stPaid.orders
    ∧ (persist_paid_order stPaid [itemA] 1 "EUR" "LIME-TEST01" "CHK-2"
        "buyer@example.com" "Buyer" "" "" "SUMUP_CARD" Option.none "F" 5).doc.payment_status = "paid"
    ∧ (persist_paid_order stPaid [itemA] 1 "EUR" "LIME-TEST01" "CHK-2"
        "buyer@example.com" "Buyer" "" "" "SUMUP_CARD" Option.none "F" 5).doc.total = 1
    ∧ (persist_paid_order stPaid [itemA] 1 "EUR" "LIME-TEST01" "CHK-2"
        "buyer@example.com" "Buyer" "" "" "SUMUP_CARD" Option.none "F" 5).doc.oid = paidDoc.oid :=
  C1_theorem stPaid [itemA] 1 "EUR" "LIME-TEST01" "CHK-2" "buyer@example.com" "Buyer"
    "" "" "SUMUP_CARD" Option.none "F" 5 paidDoc (by decide) rfl

/-! ## C5: a failed session creation does not delete the pending order -/

/-- Fixture: an empty ledger. -/
def stEmpty : St :=
  { orders := [], users := [], nextId := 0, emails := [], cartClears := 0 }

/-- Fixture: the begin-checkout payload with one valid item. -/
def c5_payload : List (String × PyVal) :=
  [("items", .list [.dict [("id", PyVal.str "test-product-id"),
      ("name", PyVal.str "Test Product"),
      ("price", PyVal.num 10), ("quantity", PyVal.num 1)]])]

/-- C5 counterexample: the provider's session creation fails (non-201)
after the pending order was persisted, and the pending order is NOT
deleted: the ledger still holds one order, in state `pending` — an
orphaned record, contrary to the claim. -/
theorem C5_counterexample :
    (sumup_create_checkout providerDown stEmpty true c5_payload "" "LIME-NEW1" 7).resp
        = CcResp.sessionFailed
    ∧ ((sumup_create_checkout providerDown stEmpty true c5_payload "" "LIME-NEW1" 7).st.orders.map
        OrderDoc.payment_status) = ["pending"]
    ∧ ((sumup_create_checkout providerDown stEmpty true c5_payload "" "LIME-NEW1" 7).st.orders.map
        OrderDoc.order_id) = ["LIME-NEW1"] :=
  ⟨rfl, rfl, rfl⟩

/-- C5 as amended: when session creation fails after the pending order has
been persisted, the handler returns the failure response and the pending
order REMAINS in the ledger (the persistence step is not undone): the
post-state order collection is exactly the prior collection with the
freshly inserted pending document appended. -/
theorem C5_theorem (P : Provider) (st : St) (payload : List (String × PyVal))
    (jwt freshRef : String) (now : ℕ) (tok : String) (cd : List (String × PyVal))
    (htok : P.token = some tok)
    (hcust : cc_customer_dict payload = some cd)
    (hne : (cc_raw_items payload).filterMap normalize_order_item ≠ [])
    (hsess : P.createSession (calculate_order_totals_subtotal
        ((cc_raw_items payload).filterMap normalize_order_item)) = Option.none) :
    (sumup_create_checkout P st true payload jwt freshRef now).resp = CcResp.sessionFailed
    ∧ ∃ d, (sumup_create_checkout P st true payload jwt freshRef now).st.orders
          = st.orders ++ [d]
        ∧ d.payment_status = "pending" := by
  have hne' : ((cc_raw_items payload).filterMap normalize_order_item).isEmpty = false := by
    cases hl : (cc_raw_items payload).filterMap normalize_order_item with
    | nil => exact absurd hl hne
    | cons a l => rfl
  simp only [sumup_create_checkout, Bool.not_true, Bool.false_eq_true, if_false, hne',
    htok, hcust, hsess]
  refine ⟨by trivial, ?_⟩
  exact ⟨_, rfl, rfl⟩

/-- C5 witness: the amended theorem instantiated on the failing provider
and the one-item payload. -/
theorem C5_witness :
    (sumup_create_checkout providerDown stEmpty true c5_payload "" "LIME-NEW1" 7).resp
        = CcResp.sessionFailed
    ∧ ∃ d, (sumup_create_checkout providerDown stEmpty true c5_payload "" "LIME-NEW1" 7).st.orders
          = stEmpty.orders ++ [d]
        ∧ d.payment_status = "pending" :=
  C5_theorem providerDown stEmpty c5_payload "" "LIME-NEW1" 7 "tok" [] rfl rfl
    (by
      intro h
      have : ((cc_raw_items c5_payload).filterMap normalize_order_item).length = 1 := rfl
      rw [h] at this
      exact absurd this (by norm_num))
    rfl

/-! ## C2: already-paid short-circuit across the three channels -/

/-- C2 counterexample: reconciling an ALREADY-PAID order through the
redirect-callback channel calls the provider status fetch (once, where the
claim requires zero calls), re-fires the post-payment effects (a fresh
receipt e-mail is attempted), and does not return the record unchanged (the
stored total 50 is overwritten with the freshly verified amount 1). -/
theorem C2_counterexample :
    paidDoc.payment_status = "paid"
    ∧ (sumup_callback (providerPaid 1) stPaid (some "LIME-TEST01") Option.none Option.none
        "F" 9).fetchCalls = 1
    ∧ stPaid.emails = []
    ∧ (sumup_callback (providerPaid 1) stPaid (some "LIME-TEST01") Option.none Option.none
        "F" 9).st.emails = ["buyer@example.com"]
    ∧ paidDoc.total = 50
    ∧ (findOrder (sumup_callback (providerPaid 1) stPaid (some "LIME-TEST01") Option.none
          Option.none "F" 9).st.orders "LIME-TEST01").map OrderDoc.total = some 1 :=
  ⟨rfl, rfl, rfl, rfl, rfl, rfl⟩

/-- C2 as amended: the webhook and direct-confirmation channels do
short-circuit on an already-paid order — no provider fetch, no effects, the
state is returned unchanged — but the redirect-callback channel has no
already-paid fast path: it performs a provider status fetch on every
attempt and, when the provider again reports paid, re-applies the
transition (re-firing the effects) instead of returning the existing record
unchanged. -/
theorem C2_theorem :
    (∀ (P : Provider) (st : St) (cid ref freshRef : String) (now : ℕ) (o : OrderDoc),
      cid ≠ "" → ref ≠ "" →
      findOrder st.orders ref = some o →
      o.payment_status = "paid" →
      (sumup_webhook P st
          [("type", PyVal.str "checkout.completed"),
           ("payload", PyVal.dict
              [("id", PyVal.str cid), ("checkout_reference", PyVal.str ref)])]
          freshRef now).resp = WhResp.alreadyPaid
      ∧ (sumup_webhook P st
          [("type", PyVal.str "checkout.completed"),
           ("payload", PyVal.dict
              [("id", PyVal.str cid), ("checkout_reference", PyVal.str ref)])]
          freshRef now).st = st
      ∧ (sumup_webhook P st
          [("type", PyVal.str "checkout.completed"),
           ("payload", PyVal.dict
              [("id", PyVal.str cid), ("checkout_reference", PyVal.str ref)])]
          freshRef now).fetchCalls = 0)
    ∧ (∀ (st : St) (rawItems : List PyVal) (items : List Item)
        (ref jwt freshRef : String) (now : ℕ) (o : OrderDoc),
      rawItems ≠ [] →
      buildCpItems rawItems = some items →
      items ≠ [] →
      pyStrip ref = ref → ref ≠ "" →
      findOrder st.orders ref = some o →
      o.payment_status = "paid" →
      (create_paid_order st [("items", PyVal.list rawItems), ("orderId", PyVal.str ref)]
          jwt freshRef now).resp = CpResp.alreadyRecorded ref
      ∧ (create_paid_order st [("items", PyVal.list rawItems), ("orderId", PyVal.str ref)]
          jwt freshRef now).st = st)
    ∧ (∀ (st : St) (ref c freshRef : String) (now : ℕ) (o : OrderDoc)
        (P : Provider) (tok : String) (data : CheckoutStatus),
      ref ≠ "" →
      findOrder st.orders ref = some o →
      o.checkout_id = some c → c ≠ "" →
      P.token = some tok →
      P.fetch c = some data → paidEquiv data.status = true →
      (sumup_callback P st (some ref) Option.none Option.none freshRef now).fetchCalls = 1
      ∧ (sumup_callback P st (some ref) Option.none Option.none freshRef now).resp
          = CbResp.success ref) := by
  refine ⟨?_, ?_, ?_⟩
  · intro P st cid ref freshRef now o hcid href hfind hpaid
    have hc : strEmpty cid = false := by unfold strEmpty; exact beq_eq_false_iff_ne.mpr hcid
    have hr : strEmpty ref = false := by unfold strEmpty; exact beq_eq_false_iff_ne.mpr href
    refine ⟨?_, ?_, ?_⟩ <;>
      simp [sumup_webhook, dget, truthy, hc, hr, hfind, hpaid]
  · intro st rawItems items ref jwt freshRef now o hraw hbuild hitems hstrip href hfind hpaid
    have hr : strEmpty ref = false := by unfold strEmpty; exact beq_eq_false_iff_ne.mpr href
    have hraw' : rawItems.isEmpty = false := by
      cases rawItems with
      | nil => exact absurd rfl hraw
      | cons a l => rfl
    have hitems' : items.isEmpty = false := by
      cases items with
      | nil => exact absurd rfl hitems
      | cons a l => rfl
    have hlow : pyLower "paid" = "paid" := rfl
    refine ⟨?_, ?_⟩ <;>
      simp [create_paid_order, dget, truthy, pyOr, pyStr, hr, hraw', hbuild, hitems',
        hstrip, hfind, hpaid, hlow]
  · intro st ref c freshRef now o P tok data href hfind hcid hc htok hfetch hpe
    have hr : strEmpty ref = false := by unfold strEmpty; exact beq_eq_false_iff_ne.mpr href
    have hcF : strEmpty c = false := by unfold strEmpty; exact beq_eq_false_iff_ne.mpr hc
    refine ⟨?_, ?_⟩ <;>
      simp [sumup_callback, cb_resolve_cid, cb_resolve_cid.lookupStored, hr, hcF, htok,
        hfind, hcid, hfetch, hpe]

/-- C2 witness: the amended theorem's webhook clause instantiated on the
already-paid single-order ledger. -/
theorem C2_witness :
    (sumup_webhook (providerPaid 25) stPaid
        [("type", PyVal.str "checkout.completed"),
         ("payload", PyVal.dict
            [("id", PyVal.str "CHK-1"), ("checkout_reference", PyVal.str "LIME-TEST01")])]
        "F" 3).resp = WhResp.alreadyPaid
    ∧ (sumup_webhook (providerPaid 25) stPaid
        [("type", PyVal.str "checkout.completed"),
         ("payload", PyVal.dict
            [("id", PyVal.str "CHK-1"), ("checkout_reference", PyVal.str "LIME-TEST01")])]
        "F" 3).st = stPaid
    ∧ (sumup_webhook (providerPaid 25) stPaid
        [("type", PyVal.str "checkout.completed"),
         ("payload", PyVal.dict
            [("id", PyVal.str "CHK-1"), ("checkout_reference", PyVal.str "LIME-TEST01")])]
        "F" 3).fetchCalls = 0 :=
  C2_theorem.1 (providerPaid 25) stPaid "CHK-1" "LIME-TEST01" "F" 3 paidDoc
    (by decide) (by decide) rfl rfl

/-! ## C3: failed verification terminates without mutating order state -/

/-- C3: for every redirect-callback or webhook reconciliation attempt in
which the provider status fetch fails (network error / non-2xx) or returns
a verified status that is not paid-equivalent, the attempt terminates with
a non-success response and the whole persistent state — the order ledger,
the users collection and the effect log — is returned unchanged. -/
theorem C3_theorem :
    (∀ (P : Provider) (st : St) (ref freshRef : String) (cidArg hint : Option String)
        (now : ℕ) (tok c : String),
      ref ≠ "" → hint ≠ some "FAILED" → P.token = some tok →
      cb_resolve_cid st.orders ref cidArg = some c → c ≠ "" →
      (P.fetch c = Option.none →
        (sumup_callback P st (some ref) cidArg hint freshRef now).resp = CbResp.verifyFailed
        ∧ (sumup_callback P st (some ref) cidArg hint freshRef now).st = st)
      ∧ (∀ data, P.fetch c = some data → paidEquiv data.status = false →
        (sumup_callback P st (some ref) cidArg hint freshRef now).resp
            = CbResp.rejected data.status
        ∧ (sumup_callback P st (some ref) cidArg hint freshRef now).st = st))
    ∧ (∀ (P : Provider) (st : St) (cid ref freshRef : String) (now : ℕ)
        (o : OrderDoc) (tok : String),
      cid ≠ "" → ref ≠ "" →
      findOrder st.orders ref = some o →
      o.payment_status ≠ "paid" → o.payment_status ≠ "captured" →
      P.token = some tok →
      (P.fetch cid = Option.none →
        (sumup_webhook P st
            [("type", PyVal.str "checkout.completed"),
             ("payload", PyVal.dict
                [("id", PyVal.str cid), ("checkout_reference", PyVal.str ref)])]
            freshRef now).resp = WhResp.verifyFailed
        ∧ (sumup_webhook P st
            [("type", PyVal.str "checkout.completed"),
             ("payload", PyVal.dict
                [("id", PyVal.str cid), ("checkout_reference", PyVal.str ref)])]
            freshRef now).st = st)
      ∧ (∀ data, P.fetch cid = some data → paidEquiv data.status = false →
        (sumup_webhook P st
            [("type", PyVal.str "checkout.completed"),
             ("payload", PyVal.dict
                [("id", PyVal.str cid), ("checkout_reference", PyVal.str ref)])]
            freshRef now).resp = WhResp.ignoredStatus data.status
        ∧ (sumup_webhook P st
            [("type", PyVal.str "checkout.completed"),
             ("payload", PyVal.dict
                [("id", PyVal.str cid), ("checkout_reference", PyVal.str ref)])]
            freshRef now).st = st)) := by
  constructor
  · intro P st ref freshRef cidArg hint now tok c href hhint htok hres hc
    have hr : strEmpty ref = false := by unfold strEmpty; exact beq_eq_false_iff_ne.mpr href
    have hh : (hint == some "FAILED") = false := beq_eq_false_iff_ne.mpr hhint
    have hcF : strEmpty c = false := by unfold strEmpty; exact beq_eq_false_iff_ne.mpr hc
    constructor
    · intro hfetch
      constructor <;> simp [sumup_callback, hr, hh, htok, hres, hcF, hfetch]
    · intro data hfetch hpe
      constructor <;> simp [sumup_callback, hr, hh, htok, hres, hcF, hfetch, hpe]
  · intro P st cid ref freshRef now o tok hcid href hfind hnp hnc htok
    have hcF : strEmpty cid = false := by unfold strEmpty; exact beq_eq_false_iff_ne.mpr hcid
    have hr : strEmpty ref = false := by unfold strEmpty; exact beq_eq_false_iff_ne.mpr href
    have hp1 : (o.payment_status == "paid") = false := beq_eq_false_iff_ne.mpr hnp
    have hp2 : (o.payment_status == "captured") = false := beq_eq_false_iff_ne.mpr hnc
    constructor
    · intro hfetch
      constructor <;>
        simp [sumup_webhook, dget, truthy, pyStr, hcF, hr, hfind, hp1, hp2, htok, hfetch]
    · intro data hfetch hpe
      constructor <;>
        simp [sumup_webhook, dget, truthy, pyStr, hcF, hr, hfind, hp1, hp2, htok, hfetch, hpe]

/-- C3 witness: the theorem instantiated on the pending single-order
ledger, once with an unreachable provider (fetch fails, 502-style
termination, no mutation) and once with a provider that verifies the
checkout as FAILED (rejected termination, no mutation). -/
theorem C3_witness :
    ((sumup_callback providerDown stPending (some "LIME-PEND1") Option.none Option.none
        "F" 3).resp = CbResp.verifyFailed
      ∧ (sumup_callback providerDown stPending (some "LIME-PEND1") Option.none Option.none
        "F" 3).st = stPending)
    ∧ ((sumup_callback providerFailedStatus stPending (some "LIME-PEND1") Option.none
        Option.none "F" 3).resp = CbResp.rejected "FAILED"
      ∧ (sumup_callback providerFailedStatus stPending (some "LIME-PEND1") Option.none
        Option.none "F" 3).st = stPending)
    ∧ ((sumup_webhook providerDown stPending
        [("type", PyVal.str "checkout.completed"),
         ("payload", PyVal.dict
            [("id", PyVal.str "CHK-1"), ("checkout_reference", PyVal.str "LIME-PEND1")])]
        "F" 3).resp = WhResp.verifyFailed
      ∧ (sumup_webhook providerDown stPending
        [("type", PyVal.str "checkout.completed"),
         ("payload", PyVal.dict
            [("id", PyVal.str "CHK-1"), ("checkout_reference", PyVal.str "LIME-PEND1")])]
        "F" 3).st = stPending) :=
  ⟨((C3_theorem.1 providerDown stPending "LIME-PEND1" "F" Option.none Option.none 3 "tok"
      "CHK-1" (by decide) (by simp) rfl rfl (by decide)).1 rfl),
   ((C3_theorem.1 providerFailedStatus stPending "LIME-PEND1" "F" Option.none Option.none 3
      "tok" "CHK-1" (by decide) (by simp) rfl rfl (by decide)).2
      (CheckoutStatus.mk "FAILED" 25 "EUR") rfl rfl),
   ((C3_theorem.2 providerDown stPending "CHK-1" "LIME-PEND1" "F" 3 pendingDoc "tok"
      (by decide) (by decide) rfl (by decide) (by decide) rfl).1 rfl)⟩

/-! ## C4: the server-computed subtotal, session creation, and reconciliation -/

/-- C4 counterexample: the stored pending order was created with the
server-computed subtotal 25.00, the provider verifies the checkout as PAID
with amount 1.00 — and reconciliation succeeds anyway, persisting 1.00: no
comparison of the stored subtotal against the provider's verified amount
happens at reconciliation time. -/
theorem C4_counterexample :
    pendingDoc.total = 25
    ∧ (sumup_callback (providerPaid 1) stPending (some "LIME-PEND1") Option.none Option.none
        "F" 9).resp = CbResp.success "LIME-PEND1"
    ∧ (findOrder (sumup_callback (providerPaid 1) stPending (some "LIME-PEND1") Option.none
          Option.none "F" 9).st.orders "LIME-PEND1").map OrderDoc.total = some 1 :=
  ⟨rfl, rfl, rfl⟩

/-- Characterization of the amount submitted to the provider's
session-creation call: it is exactly the computed subtotal of the
normalized cart, and it is submitted whenever configuration, normalization
and authentication succeed. -/
theorem cc_sessionAmount_spec (P : Provider) (st : St) (configOk : Bool)
    (payload : List (String × PyVal)) (jwt freshRef : String) (now : ℕ) :
    (sumup_create_checkout P st configOk payload jwt freshRef now).sessionAmount
      = if configOk
            ∧ ((cc_raw_items payload).filterMap normalize_order_item) ≠ []
            ∧ P.token.isSome
            ∧ (cc_customer_dict payload).isSome then
          some (calculate_order_totals_subtotal
            ((cc_raw_items payload).filterMap normalize_order_item))
        else Option.none := by
  unfold sumup_create_checkout
  cases configOk with
  | false => simp
  | true =>
    cases hl : (cc_raw_items payload).filterMap normalize_order_item with
    | nil => simp [hl]
    | cons a l =>
      cases htk : P.token with
      | none => simp [hl, htk]
      | some t =>
        cases hcd : cc_customer_dict payload with
        | none => simp [hl, htk, hcd]
        | some cd =>
          cases hcs : P.createSession (calculate_order_totals_subtotal (a :: l)) with
          | none => simp [hl, htk, hcd, hcs]
          | some cid => simp [hl, htk, hcd, hcs]

/-- C4 as amended: the session amount submitted to the provider is the
server-computed subtotal of the normalized cart — Σ(price × quantity) over
surviving items, rounded to 2 places — and, among requests whose `customer`
field is well-formed (so the request does not 500 before the session POST),
it is a function of the submitted item list alone: any client-supplied
total field is ignored.  At reconciliation, however, the provider's
verified amount is persisted as the paid total WITHOUT being compared
against the stored subtotal: for an arbitrary stored order and an arbitrary
verified amount, the callback succeeds and the ledger ends up holding the
verified amount. -/
theorem C4_theorem :
    (∀ (P : Provider) (st : St) (configOk : Bool) (p1 p2 : List (String × PyVal))
        (jwt freshRef : String) (now : ℕ),
      cc_raw_items p1 = cc_raw_items p2 →
      (cc_customer_dict p1).isSome = true →
      (cc_customer_dict p2).isSome = true →
      (sumup_create_checkout P st configOk p1 jwt freshRef now).sessionAmount
        = (sumup_create_checkout P st configOk p2 jwt freshRef now).sessionAmount)
    ∧ (∀ (P : Provider) (st : St) (configOk : Bool) (p : List (String × PyVal))
        (jwt freshRef : String) (now : ℕ) (a : ℚ),
      (sumup_create_checkout P st configOk p jwt freshRef now).sessionAmount = some a →
      a = calculate_order_totals_subtotal ((cc_raw_items p).filterMap normalize_order_item))
    ∧ (∀ (o : OrderDoc) (ref c freshRef : String) (now : ℕ) (P : Provider) (tok : String)
        (data : CheckoutStatus) (users : List UserDoc) (nid : ℕ) (emails : List String)
        (k : ℕ),
      ref ≠ "" → o.order_id = ref →
      o.checkout_id = some c → c ≠ "" →
      P.token = some tok →
      P.fetch c = some data → paidEquiv data.status = true →
      ((sumup_callback P ⟨[o], users, nid, emails, k⟩ (some ref) Option.none Option.none
          freshRef now).st.orders.map OrderDoc.total) = [data.amount]
      ∧ (sumup_callback P ⟨[o], users, nid, emails, k⟩ (some ref) Option.none Option.none
          freshRef now).resp = CbResp.success ref) := by
  refine ⟨?_, ?_, ?_⟩
  · intro P st configOk p1 p2 jwt freshRef now hitems hc1 hc2
    rw [cc_sessionAmount_spec, cc_sessionAmount_spec, hitems]
    simp [hc1, hc2]
  · intro P st configOk p jwt freshRef now a h
    rw [cc_sessionAmount_spec] at h
    by_cases hcond : configOk
        ∧ ((cc_raw_items p).filterMap normalize_order_item) ≠ []
        ∧ P.token.isSome
        ∧ (cc_customer_dict p).isSome
    · rw [if_pos hcond] at h
      exact (Option.some.injEq _ _ ▸ h).symm
    · rw [if_neg hcond] at h
      exact absurd h (by simp)
  · intro o ref c freshRef now P tok data users nid emails k href ho hcid hc htok hfetch hpe
    have hr : strEmpty ref = false := by unfold strEmpty; exact beq_eq_false_iff_ne.mpr href
    have hcF : strEmpty c = false := by unfold strEmpty; exact beq_eq_false_iff_ne.mpr hc
    constructor <;>
      simp [sumup_callback, cb_resolve_cid, cb_resolve_cid.lookupStored, findOrder,
        persist_paid_order, clear_user_cart_state, applyPaidSet, updateFirst,
        hr, hcF, htok, hfetch, hpe, ho, hcid]

/-- C4 witness: the three clauses instantiated — two begin-checkout
payloads differing only in a client `total` field produce the same session
amount; a successful session's amount equals the computed subtotal; and the
callback persists the provider-verified amount 1 on the pending order. -/
theorem C4_witness :
    ((sumup_create_checkout (providerPaid 1) stEmpty true
        (("total", PyVal.num 999) :: c5_payload) "" "LIME-NEW1" 7).sessionAmount
      = (sumup_create_checkout (providerPaid 1) stEmpty true c5_payload "" "LIME-NEW1"
          7).sessionAmount)
    ∧ (calculate_order_totals_subtotal ((cc_raw_items c5_payload).filterMap normalize_order_item)
        = calculate_order_totals_subtotal ((cc_raw_items c5_payload).filterMap normalize_order_item))
    ∧ (((sumup_callback (providerPaid 1) ⟨[pendingDoc], [], 1, [], 0⟩ (some "LIME-PEND1")
          Option.none Option.none "F" 9).st.orders.map OrderDoc.total) = [(1 : ℚ)]
      ∧ (sumup_callback (providerPaid 1) ⟨[pendingDoc], [], 1, [], 0⟩ (some "LIME-PEND1")
          Option.none Option.none "F" 9).resp = CbResp.success "LIME-PEND1") :=
  ⟨C4_theorem.1 (providerPaid 1) stEmpty true (("total", PyVal.num 999) :: c5_payload)
      c5_payload "" "LIME-NEW1" 7 rfl rfl rfl,
   C4_theorem.2.1 (providerPaid 1) stEmpty true c5_payload "" "LIME-NEW1" 7
      (calculate_order_totals_subtotal ((cc_raw_items c5_payload).filterMap normalize_order_item))
      rfl,
   C4_theorem.2.2 pendingDoc "LIME-PEND1" "CHK-1" "F" 9 (providerPaid 1) "tok"
      (CheckoutStatus.mk "PAID" 1 "EUR") [] 1 [] 0 (by decide) rfl rfl (by decide) rfl rfl rfl⟩

/-! ## C9: the direct-confirmation total ignores the client total -/

/-- C9: in the direct client-confirmation path, whenever the
server-recomputed sum over the normalized items is nonzero, the selected
(and persisted) total equals that recomputed sum regardless of the
client-supplied total field — two requests differing only in that field
select the same total; the client-supplied total is selected only when the
recomputed sum is exactly 0; and `persist_paid_order` stores exactly the
selected total on the returned order document. -/
theorem C9_theorem (items : List Item) (t1 t2 : PyVal) (st : St)
    (currency oid cref cem cname cue uid pm : String) (sa : Option String)
    (freshRef : String) (now : ℕ) :
    (cp_calculated_total items ≠ 0 →
      cp_total_value items t1 = cp_calculated_total items
      ∧ cp_total_value items t1 = cp_total_value items t2)
    ∧ (cp_calculated_total items = 0 →
      cp_total_value items t1 = round2 (safe_float t1 0))
    ∧ (persist_paid_order st items (cp_total_value items t1) currency oid cref cem cname
        cue uid pm sa freshRef now).doc.total = cp_total_value items t1 := by
  refine ⟨?_, ?_, ?_⟩
  · intro hne
    have key : ∀ t, cp_total_value items t = cp_calculated_total items := by
      intro t
      simp only [cp_total_value]
      split
      · rfl
      · simp [hne]
    exact ⟨key t1, (key t1).trans (key t2).symm⟩
  · intro hz
    simp [cp_total_value, hz]
  · simp only [persist_paid_order]
    split <;> rfl

/-- C9 witness: on a cart with recomputed sum 20.00 ≠ 0, client totals 999
and 5 select the same persisted total, namely the recomputed sum. -/
theorem C9_witness :
    cp_total_value [itemA] (PyVal.num 999) = cp_calculated_total [itemA]
    ∧ cp_total_value [itemA] (PyVal.num 999) = cp_total_value [itemA] (PyVal.num 5) :=
  (C9_theorem [itemA] (PyVal.num 999) (PyVal.num 5) stEmpty "EUR" "LIME-X" "CHK" ""
      "" "" "" "PM" Option.none "F" 0).1
    (by
      have h : cp_calculated_total [itemA] = round2 20 := by
        norm_num [cp_calculated_total, List.foldl, itemA]
      rw [h]
      norm_num [round2, roundHalfEven, Rat.floor])

/-! ## C10: the cart-residue cleanup frame property -/

/-- Helper: `updateFirst` rewrites a matched head. -/
theorem updateFirst_cons_pos {α : Type} (p : α → Bool) (f : α → α) (x : α) (xs : List α)
    (hp : p x = true) : updateFirst p f (x :: xs) = f x :: xs := by
  simp [updateFirst, hp]

/-- Helper: `updateFirst` skips an unmatched head. -/
theorem updateFirst_cons_neg {α : Type} (p : α → Bool) (f : α → α) (x : α) (xs : List α)
    (hp : p x = false) : updateFirst p f (x :: xs) = x :: updateFirst p f xs := by
  simp [updateFirst, hp]

/-- Helper: `updateFirst` preserves length. -/
theorem updateFirst_length {α : Type} (p : α → Bool) (f : α → α) (l : List α) :
    (updateFirst p f l).length = l.length := by
  induction l with
  | nil => rfl
  | cons x xs ih =>
    by_cases hp : p x = true
    · rw [updateFirst_cons_pos p f x xs hp]
      simp
    · have hp' : p x = false := by
        cases hb : p x with
        | true => exact absurd hb hp
        | false => rfl
      rw [updateFirst_cons_neg p f x xs hp']
      simp [ih]

/-- Helper: every position of `updateFirst p f l` holds either the original
element or its image under `f`. -/
theorem updateFirst_getElem? {α : Type} (p : α → Bool) (f : α → α) (l : List α) (i : ℕ) :
    (updateFirst p f l)[i]? = l[i]?
    ∨ (updateFirst p f l)[i]? = (l[i]?).map f := by
  induction l generalizing i with
  | nil => left; rfl
  | cons x xs ih =>
    by_cases hp : p x = true
    · have hu := updateFirst_cons_pos p f x xs hp
      cases i with
      | zero => right; simp [hu]
      | succ n => left; simp [hu]
    · have hp' : p x = false := by
        cases hb : p x with
        | true => exact absurd hb hp
        | false => rfl
      have hu := updateFirst_cons_neg p f x xs hp'
      cases i with
      | zero => left; simp [hu]
      | succ n =>
          rcases ih n with h | h
          · left; simp [hu, h]
          · right; simp [hu, h]

/-- Helper: looking up a key in a cons-cell of a document. -/
theorem dget_cons (p : String × PyVal) (rest : List (String × PyVal)) (k : String) :
    dget (p :: rest) k = if (p.1 == k) then p.2 else dget rest k := by
  by_cases h : (p.1 == k) = true <;> simp [dget, List.find?_cons, h]

/-- Helper: removing the `cart`/`cart_items` keys leaves every other key's
value unchanged. -/
theorem dget_unsetCartFields (u : UserDoc) (k : String)
    (h1 : k ≠ "cart") (h2 : k ≠ "cart_items") :
    dget (unsetCartFields u) k = dget u k := by
  induction u with
  | nil => rfl
  | cons p rest ih =>
    by_cases hdrop : (p.1 == "cart" || p.1 == "cart_items") = true
    · have hk' : (p.1 == k) = false := by
        refine beq_eq_false_iff_ne.mpr ?_
        rcases Bool.or_eq_true_iff.mp hdrop with hc | hc
        · rw [eq_of_beq hc]; exact fun he => h1 he.symm
        · rw [eq_of_beq hc]; exact fun he => h2 he.symm
      have e1 : unsetCartFields (p :: rest) = unsetCartFields rest := by
        rcases Bool.or_eq_true_iff.mp hdrop with hc | hc <;>
          simp [unsetCartFields, List.filter_cons, hc]
      rw [e1, ih, dget_cons]
      simp [hk']
    · have hb12 : (p.1 == "cart") = false ∧ (p.1 == "cart_items") = false := by
        cases hb1 : (p.1 == "cart") with
        | true => exact absurd (by simp [hb1]) hdrop
        | false =>
          cases hb2 : (p.1 == "cart_items") with
          | true => exact absurd (by simp [hb2]) hdrop
          | false => exact ⟨rfl, rfl⟩
      have e1 : unsetCartFields (p :: rest) = p :: unsetCartFields rest := by
        simp [unsetCartFields, List.filter_cons, hb12.1, hb12.2]
      rw [e1, dget_cons, dget_cons]
      by_cases hk : (p.1 == k) = true
      · simp [hk]
      · have hk' : (p.1 == k) = false := by
          cases hb : (p.1 == k) with
          | true => exact absurd hb hk
          | false => rfl
        simp [hk', ih]

/-- C10: the post-payment cart-residue cleanup deletes only order documents
whose payment status is `pending` AND that match the assembled purchaser
ownership filter; the surviving orders are an (unaltered) sublist of the
originals, so in particular no paid order is ever deleted; the users
collection keeps its length and every user document agrees with its
original on every key other than `cart`/`cart_items`; the effect log and
id allocator are untouched. -/
theorem C10_theorem (st : St) (em uid : String) (poid : Option String) :
    (clear_user_cart_state st em uid poid).orders.Sublist st.orders
    ∧ (∀ o ∈ st.orders, o ∉ (clear_user_cart_state st em uid poid).orders →
        o.payment_status = "pending"
        ∧ cleanupOwnershipMatch (normalize_email em) (pyStrip uid) poid o = true)
    ∧ (∀ o ∈ st.orders, o.payment_status = "paid" →
        o ∈ (clear_user_cart_state st em uid poid).orders)
    ∧ (clear_user_cart_state st em uid poid).users.length = st.users.length
    ∧ (∀ (i : ℕ) (kk : String), kk ≠ "cart" → kk ≠ "cart_items" →
        ((clear_user_cart_state st em uid poid).users[i]?).map (fun u => dget u kk)
          = (st.users[i]?).map (fun u => dget u kk))
    ∧ (clear_user_cart_state st em uid poid).emails = st.emails
    ∧ (clear_user_cart_state st em uid poid).nextId = st.nextId := by
  have hmem : ∀ o ∈ st.orders, o ∉ (clear_user_cart_state st em uid poid).orders →
      o.payment_status = "pending"
      ∧ cleanupOwnershipMatch (normalize_email em) (pyStrip uid) poid o = true := by
    intro o ho hno
    simp only [clear_user_cart_state] at hno
    split at hno
    · rw [List.mem_filter] at hno
      push_neg at hno
      have hfail := hno ho
      have hT : (o.payment_status == "pending"
          && cleanupOwnershipMatch (normalize_email em) (pyStrip uid) poid o) = true := by
        cases hb : (o.payment_status == "pending"
            && cleanupOwnershipMatch (normalize_email em) (pyStrip uid) poid o) with
        | true => rfl
        | false => exact absurd (by simp [hb]) hfail
      rw [Bool.and_eq_true] at hT
      exact ⟨eq_of_beq hT.1, hT.2⟩
    · exact absurd ho hno
  refine ⟨?_, hmem, ?_, ?_, ?_, ?_, ?_⟩
  · simp only [clear_user_cart_state]
    split
    · exact List.filter_sublist _
    · exact List.Sublist.refl _
  · intro o ho hpaid
    by_contra hno
    have h := (hmem o ho hno).1
    rw [hpaid] at h
    exact absurd h (by decide)
  · simp only [clear_user_cart_state]
    split
    · rfl
    · exact updateFirst_length _ _ _
  · intro i kk hk1 hk2
    by_cases hemp : strEmpty (normalize_email em) = true
    · simp [clear_user_cart_state, hemp]
    · have hemp' : strEmpty (normalize_email em) = false := by
        cases hb : strEmpty (normalize_email em) with
        | true => exact absurd hb hemp
        | false => rfl
      simp only [clear_user_cart_state, hemp', Bool.false_eq_true, if_false]
      rcases updateFirst_getElem? (fun u => userEmailIs u (normalize_email em))
          unsetCartFields st.users i with h | h
      · rw [h]
      · rw [h]
        cases hu : st.users[i]? with
        | none => rfl
        | some u => simp [dget_unsetCartFields u kk hk1 hk2]
  · simp [clear_user_cart_state]
  · simp [clear_user_cart_state]

/-- C10 witness: on the single-paid-order ledger, the paid order survives
the cleanup. -/
theorem C10_witness :
    paidDoc ∈ (clear_user_cart_state stPaid "buyer@example.com" "" Option.none).orders :=
  (C10_theorem stPaid "buyer@example.com" "" Option.none).2.2.1 paidDoc
    (by simp [stPaid]) rfl

end LimeStore
